import Mathlib

/-!
Verification development for the `AnalisadorCestaBasicaPro` analysis class
(`src/classes/algotithms.py`): a shallow embedding of its time-series
pipeline (series construction, lag features, temporal train/test split,
metric computation, stationarity differencing, Granger minimum-p-value
selection and cross-correlation argmax) together with theorems settling
the specification's claims about it.

Conventions of the embedding:
* timestamps are natural numbers, prices (`PPK`) are rationals;
* the statistical library calls (`adfuller`, `grangercausalitytests`,
  `ccf`, `RandomForestRegressor.fit/predict`) are external collaborators
  and enter as oracle parameters; everything the analysis class itself
  computes around them is embedded faithfully;
* a branch of the source that prints a diagnostic message and aborts is
  embedded as an `Except.error` carrying a constructor named after that
  message, one constructor per distinct diagnostic.
-/

set_option maxHeartbeats 1000000

namespace CestaBasica

/-- One raw price record of the loaded dataset: collection date (as a
period-ordinal), product id, establishment id, price-per-unit `PPK`, and
the boolean category-membership columns of the row. -/
structure Linha where
  data : Nat
  produto : Nat
  estabelecimento : Nat
  ppk : ℚ
  categorias : List (String × Bool)
deriving DecidableEq

/-- The loaded raw dataset (`self.dados_brutos`): its column names and its
rows, sorted by the `Data_Coleta` index as `__init__` leaves them. -/
structure DadosBrutos where
  colunas : List String
  linhas : List Linha
deriving DecidableEq

/-- Arithmetic mean of a list of rationals (`numpy`/`pandas` mean). -/
def mean_list (l : List ℚ) : ℚ := l.sum / (l.length : ℚ)

/-- Mean with the pandas convention that an empty group aggregates to
`NaN`, embedded as `none`. -/
def mean_opt (l : List ℚ) : Option ℚ :=
  if l.isEmpty then none else some (mean_list l)

/-- Embeds `serie.resample(freq).mean()`: group the records into periods
of length `freq` (period of timestamp `t` is `t / freq`), produce one
grid entry per period from the first to the last populated period, each
holding the mean of its records' values, or `none` for an empty period. -/
def resample_mean (freq : ℕ) (rows : List (ℕ × ℚ)) : List (ℕ × Option ℚ) :=
  match rows with
  | [] => []
  | r0 :: _ =>
    let periodo : ℕ × ℚ → ℕ := fun r => r.1 / freq
    let minP := (rows.map periodo).foldl min (periodo r0)
    let maxP := (rows.map periodo).foldl max (periodo r0)
    (List.range' minP (maxP + 1 - minP)).map fun p =>
      (p, mean_opt ((rows.filter fun r => periodo r = p).map Prod.snd))

/-- Embeds `fillna(method='ffill')`: replace each undefined entry by the
last defined value seen so far (`ultimo`), leaving leading undefined
entries undefined when no value precedes them. -/
def ffill (ultimo : Option ℚ) : List (ℕ × Option ℚ) → List (ℕ × Option ℚ)
  | [] => []
  | (t, some v) :: resto => (t, some v) :: ffill (some v) resto
  | (t, none) :: resto => (t, ultimo) :: ffill ultimo resto

/-- Embeds `dropna()` on a series with possibly-undefined values: keep
exactly the defined entries. -/
def dropna_opt (l : List (ℕ × Option ℚ)) : List (ℕ × ℚ) :=
  l.filterMap fun p => p.2.map fun v => (p.1, v)

/-- Error states of the Question 1 pipeline, one per distinct
diagnostic-and-abort branch of the source. -/
inductive ErroQ1 where
  | colunaNaoEncontrada
  | nenhumDado
  | serieVazia
  | dadosInsuficientes
deriving DecidableEq

/-- Embeds `_preparar_serie_temporal`: check the category column exists,
filter the rows whose flag for that column is `True` (aborting with the
no-data diagnostic when none match), then resample to the target
frequency by period means, forward-fill, and drop remaining undefined
(leading) periods. -/
def preparar_serie_temporal (dados : DadosBrutos) (categoria_col : String)
    (freq : ℕ) : Except ErroQ1 (List (ℕ × ℚ)) :=
  if categoria_col ∈ dados.colunas then
    let dados_filtrados := dados.linhas.filter fun l =>
      (l.categorias.lookup categoria_col).getD false
    if dados_filtrados.isEmpty then Except.error ErroQ1.nenhumDado
    else Except.ok (dropna_opt (ffill none
      (resample_mean freq (dados_filtrados.map fun l => (l.data, l.ppk)))))
  else Except.error ErroQ1.colunaNaoEncontrada

/-- Embeds `df['y'].shift i` read at row `t`: the value at row `t - i`,
undefined for the first `i` rows. -/
def shiftLag (vals : List ℚ) (i t : ℕ) : Option ℚ :=
  if i ≤ t then some (vals.getD (t - i) 0) else none

/-- Embeds `_criar_features_lags`: for each row `t` of the series, form
the target `y(t)` and the shifted columns `y_lag_1 .. y_lag_n`, then
`dropna` the rows where some lag is undefined.  A row carries its
timestamp (the dataframe index), its target, and its lag features. -/
def criar_features_lags (serie : List (ℕ × ℚ)) (n_lags : ℕ) :
    List (ℕ × ℚ × List ℚ) :=
  (List.range serie.length).filterMap fun t =>
    let lags := (List.range n_lags).map fun i =>
      shiftLag (serie.map Prod.snd) (i + 1) t
    if lags.all Option.isSome then
      some ((serie.getD t (0, 0)).1, (serie.getD t (0, 0)).2,
        lags.map fun o => o.getD 0)
    else none

/-- Embeds the Python slice `xs[:-k]` (used as `X.iloc[:-k]`): for
`k > 0`, all rows but the last `k`; for `k = 0`, the empty slice
`xs[:0]`. -/
def ilocUpToNeg {α : Type} (xs : List α) (k : ℕ) : List α :=
  if k = 0 then [] else xs.take (xs.length - k)

/-- Embeds the Python slice `xs[-k:]` (used as `X.iloc[-k:]`): for
`k > 0`, the last `k` rows; for `k = 0`, the whole list `xs[0:]`. -/
def ilocFromNeg {α : Type} (xs : List α) (k : ℕ) : List α :=
  if k = 0 then xs else xs.drop (xs.length - k)

/-- Embeds the temporal split
`X.iloc[:-test_size], X.iloc[-test_size:]` of the lagged feature table. -/
def splitTreinoTeste {α : Type} (tabela : List α) (k : ℕ) :
    List α × List α :=
  (ilocUpToNeg tabela k, ilocFromNeg tabela k)

/-- Transcribed from the spec's words, for comparison with the code's
split: the training prefix is "all rows except the last `k`". -/
def spec_train_rows {α : Type} (xs : List α) (k : ℕ) : List α :=
  xs.take (xs.length - k)

/-- Transcribed from the spec's words, for comparison with the code's
split: the test suffix is "the last `k` rows". -/
def spec_test_rows {α : Type} (xs : List α) (k : ℕ) : List α :=
  xs.drop (xs.length - k)

/-- Embeds sklearn's `mean_absolute_percentage_error`: the mean of
`|y - yhat| / max(|y|, eps)`, where `eps` is the library's machine
epsilon guard against zero denominators. -/
def sk_mape (eps : ℚ) (y_true y_pred : List ℚ) : ℚ :=
  mean_list (List.zipWith (fun t p => |t - p| / max |t| eps) y_true y_pred)

/-- Embeds sklearn's `mean_squared_error`: the mean of squared
residuals.  The source reports its square root as RMSE. -/
def sk_mse (y_true y_pred : List ℚ) : ℚ :=
  mean_list (List.zipWith (fun t p => (t - p) ^ 2) y_true y_pred)

/-- Successful output of the Question 1 pipeline: the held-out actual and
predicted values, the two reported metrics, the MAPE-below-10% verdict,
and the one-step-ahead prediction. -/
structure ResultadoQ1 where
  y_test : List ℚ
  predicoes : List ℚ
  mape : ℚ
  mse : ℚ
  objetivo_atingido : Bool
  proxima_previsao : ℚ
deriving DecidableEq

/-- Embeds `analisar_previsao_preco_ml`: build the category series, abort
on an empty series, build the lag table, abort when fewer than
`test_size + n_lags` rows remain, split temporally with the negative
`iloc` slices, train the regression oracle `fitO` on the training prefix,
predict the test suffix, compute sklearn MAPE and MSE, and predict one
step ahead from the last test feature row. -/
def analisar_previsao_preco_ml
    (fitO : List (List ℚ × ℚ) → List ℚ → ℚ) (eps : ℚ)
    (dados : DadosBrutos) (categoria_col : String)
    (freq n_lags test_size_semanas : ℕ) : Except ErroQ1 ResultadoQ1 :=
  match preparar_serie_temporal dados categoria_col freq with
  | Except.error e => Except.error e
  | Except.ok serie =>
    if serie.isEmpty then Except.error ErroQ1.serieVazia
    else
      let tabela := criar_features_lags serie n_lags
      if tabela.length < test_size_semanas + n_lags then
        Except.error ErroQ1.dadosInsuficientes
      else
        let treino := ilocUpToNeg tabela test_size_semanas
        let teste := ilocFromNeg tabela test_size_semanas
        let modelo := fitO (treino.map fun r => (r.2.2, r.2.1))
        let predicoes := teste.map fun r => modelo r.2.2
        let y_test := teste.map fun r => r.2.1
        let historico_recente := ((teste.getLast?).map fun r => r.2.2).getD []
        Except.ok
          { y_test := y_test
            predicoes := predicoes
            mape := sk_mape eps y_test predicoes
            mse := sk_mse y_test predicoes
            objetivo_atingido := decide (sk_mape eps y_test predicoes < 1 / 10)
            proxima_previsao := modelo historico_recente }

/-- Embeds `serie.diff().dropna()`: the first-order difference
`value[t] − value[t−1]`, indexed like the series from its second entry
on, with the undefined first difference dropped. -/
def diff_dropna (s : List (ℕ × ℚ)) : List (ℕ × ℚ) :=
  (s.zip (s.drop 1)).map fun p => (p.2.1, p.2.2 - p.1.2)

/-- Embeds `_verificar_estacionariedade`: run the ADF oracle on the
series values; when the p-value exceeds 0.05 return the once-differenced
series (the source re-tests the differenced series but only prints that
second p-value), otherwise return the series unchanged. -/
def verificar_estacionariedade (adfO : List ℚ → ℚ) (s : List (ℕ × ℚ)) :
    List (ℕ × ℚ) :=
  if adfO (s.map Prod.snd) > 1 / 20 then diff_dropna s else s

/-- The index of `dados_prod.pivot_table(...)`: the distinct collection
timestamps of the product's rows. -/
def pivot_index (rows : List Linha) : List ℕ :=
  (rows.map Linha.data).dedup

/-- One cell of the pivot table: the mean `PPK` of the product rows with
this establishment at this exact timestamp, `NaN` when there are none. -/
def pivot_val (rows : List Linha) (estab t : ℕ) : Option ℚ :=
  mean_opt ((rows.filter fun r =>
    decide (r.estabelecimento = estab ∧ r.data = t)).map Linha.ppk)

/-- Embeds `dados_pivot[[A, B]].resample(freq).mean()` on the paired
pivot columns: one grid entry per period from the first to the last
populated period, holding each column's mean over the period's pivot
cells with `NaN` cells skipped (pandas `skipna` mean), `NaN` when the
period has no defined cell. -/
def resample_pares (freq : ℕ) (idx : List ℕ) (colA colB : ℕ → Option ℚ) :
    List (ℕ × Option ℚ × Option ℚ) :=
  match idx with
  | [] => []
  | t0 :: _ =>
    let minP := (idx.map (· / freq)).foldl min (t0 / freq)
    let maxP := (idx.map (· / freq)).foldl max (t0 / freq)
    (List.range' minP (maxP + 1 - minP)).map fun p =>
      let ts := idx.filter fun t => t / freq = p
      (p, mean_opt (ts.filterMap colA), mean_opt (ts.filterMap colB))

/-- Embeds `fillna(method='ffill')` on the paired frame, column by
column. -/
def ffill_pares (ua ub : Option ℚ) :
    List (ℕ × Option ℚ × Option ℚ) → List (ℕ × Option ℚ × Option ℚ)
  | [] => []
  | (t, a, b) :: resto =>
    let a' := a.getD (ua.getD 0)
    let b' := b.getD (ub.getD 0)
    let oa := if a.isSome ∨ ua.isSome then some a' else none
    let ob := if b.isSome ∨ ub.isSome then some b' else none
    (t, oa, ob) :: ffill_pares oa ob resto

/-- Embeds `dropna()` on the paired frame: keep the rows where both
columns are defined. -/
def dropna_pares (l : List (ℕ × Option ℚ × Option ℚ)) :
    List (ℕ × ℚ × ℚ) :=
  l.filterMap fun r =>
    match r with
    | (t, some a, some b) => some (t, a, b)
    | _ => none

/-- Embeds the construction of `dados_pares` in
`analisar_lideranca_preco`: filter the product's rows, pivot on
establishment over `PPK`, select the two establishments' columns,
resample to the target frequency, forward-fill and drop the remaining
(leading) undefined rows. -/
def dados_pares (dados : DadosBrutos) (produto_id estab_A estab_B freq : ℕ) :
    List (ℕ × ℚ × ℚ) :=
  let dados_prod := dados.linhas.filter fun l => decide (l.produto = produto_id)
  dropna_pares (ffill_pares none none (resample_pares freq
    (pivot_index dados_prod)
    (pivot_val dados_prod estab_A) (pivot_val dados_prod estab_B)))

/-- Embeds `pd.concat([serie_A_est, serie_B_est], axis=1).dropna()`: the
outer join of the two series on their timestamp index followed by
dropping rows where either side is undefined, i.e. the inner join. -/
def alinhar (sA sB : List (ℕ × ℚ)) : List (ℕ × ℚ × ℚ) :=
  sA.filterMap fun p => (sB.lookup p.1).map fun b => (p.1, p.2, b)

/-- The stationarized first-establishment series
`serie_A_est = _verificar_estacionariedade(dados_pares[estab_A])`. -/
def serie_A_est (adfO : List ℚ → ℚ) (dados : DadosBrutos)
    (produto_id estab_A estab_B freq : ℕ) : List (ℕ × ℚ) :=
  verificar_estacionariedade adfO
    ((dados_pares dados produto_id estab_A estab_B freq).map fun r => (r.1, r.2.1))

/-- The stationarized second-establishment series
`serie_B_est = _verificar_estacionariedade(dados_pares[estab_B])`. -/
def serie_B_est (adfO : List ℚ → ℚ) (dados : DadosBrutos)
    (produto_id estab_A estab_B freq : ℕ) : List (ℕ × ℚ) :=
  verificar_estacionariedade adfO
    ((dados_pares dados produto_id estab_A estab_B freq).map fun r => (r.1, r.2.2))

/-- The re-aligned stationarized frame `dados_estacionarios`. -/
def dados_estacionarios (adfO : List ℚ → ℚ) (dados : DadosBrutos)
    (produto_id estab_A estab_B freq : ℕ) : List (ℕ × ℚ × ℚ) :=
  alinhar (serie_A_est adfO dados produto_id estab_A estab_B freq)
    (serie_B_est adfO dados produto_id estab_A estab_B freq)

/-- The cross-correlation sequence
`ccf_vals = ccf(serie_A_est, serie_B_est, adjusted=True)`, indexed by lag
from 0. -/
def ccf_vals (adfO : List ℚ → ℚ) (ccfO : List ℚ → List ℚ → List ℚ)
    (dados : DadosBrutos) (produto_id estab_A estab_B freq : ℕ) : List ℚ :=
  ccfO ((serie_A_est adfO dados produto_id estab_A estab_B freq).map Prod.snd)
    ((serie_B_est adfO dados produto_id estab_A estab_B freq).map Prod.snd)

/-- Embeds Python's builtin `min` over a non-empty sequence, as used on
the generator of per-lag Granger p-values. -/
def python_min : List ℚ → ℚ
  | [] => 0
  | x :: xs => xs.foldl min x

/-- Helper of `np_argmax`: scan the remaining entries keeping the index
and value of the running maximum, replacing it only on a strict
increase, so the first occurrence of the maximum wins. -/
def argmaxFrom (best : ℕ × ℚ) (i : ℕ) : List ℚ → ℕ × ℚ
  | [] => best
  | v :: resto =>
    if best.2 < v then argmaxFrom (i, v) (i + 1) resto
    else argmaxFrom best (i + 1) resto

/-- Embeds `np.argmax`: the index of the first occurrence of the maximum
value (numpy raises on an empty array; that case is unreachable at the
use site and mapped to index 0). -/
def np_argmax (xs : List ℚ) : ℕ :=
  match xs with
  | [] => 0
  | v :: resto => (argmaxFrom (0, v) 1 resto).1

/-- Error states of the Question 2 pipeline, one per distinct
diagnostic-and-abort branch of the source. -/
inductive ErroQ2 where
  | produtoNaoEncontrado
  | estabSemDados
  | dadosInsuficientes
deriving DecidableEq

/-- Successful output of the Question 2 pipeline: the minimum Granger
p-value and its significance verdict for each direction, and the
strongest cross-correlation lag with its signed value. -/
structure ResultadoQ2 where
  p_valor_min_A_B : ℚ
  p_valor_min_B_A : ℚ
  sig_A_B : Bool
  sig_B_A : Bool
  max_corr_lag : ℕ
  max_corr_val : ℚ
deriving DecidableEq

/-- Embeds `analisar_lideranca_preco`: filter the product (aborting when
absent), check both establishments appear among the product's rows,
build the aligned paired series, abort when fewer than `max_lag + 20`
rows remain, stationarize each column with the ADF oracle, re-align the
two stationarized series, take for each direction the minimum of the
per-lag Granger p-values for lags `1..max_lag` (column order `[Y, X]` as
in the source), and locate the strongest cross-correlation lag by
`np.argmax` over the absolute values of `ccf_vals[1:max_lag+1]`. -/
def analisar_lideranca_preco
    (adfO : List ℚ → ℚ) (grangerO : List (ℚ × ℚ) → ℕ → ℚ)
    (ccfO : List ℚ → List ℚ → List ℚ)
    (dados : DadosBrutos) (produto_id estab_A estab_B freq max_lag : ℕ) :
    Except ErroQ2 ResultadoQ2 :=
  let dados_prod := dados.linhas.filter fun l => decide (l.produto = produto_id)
  if dados_prod.isEmpty then Except.error ErroQ2.produtoNaoEncontrado
  else if estab_A ∈ dados_prod.map Linha.estabelecimento ∧
      estab_B ∈ dados_prod.map Linha.estabelecimento then
    if (dados_pares dados produto_id estab_A estab_B freq).length < max_lag + 20
    then Except.error ErroQ2.dadosInsuficientes
    else
      let frame := dados_estacionarios adfO dados produto_id estab_A estab_B freq
      let p_valor_min_A_B := python_min ((List.range' 1 max_lag).map fun lag =>
        grangerO (frame.map fun r => (r.2.2, r.2.1)) lag)
      let p_valor_min_B_A := python_min ((List.range' 1 max_lag).map fun lag =>
        grangerO (frame.map fun r => (r.2.1, r.2.2)) lag)
      let cv := ccf_vals adfO ccfO dados produto_id estab_A estab_B freq
      let max_corr_lag :=
        np_argmax (((cv.drop 1).take max_lag).map fun x => |x|) + 1
      Except.ok
        { p_valor_min_A_B := p_valor_min_A_B
          p_valor_min_B_A := p_valor_min_B_A
          sig_A_B := decide (p_valor_min_A_B < 1 / 20)
          sig_B_A := decide (p_valor_min_B_A < 1 / 20)
          max_corr_lag := max_corr_lag
          max_corr_val := cv.getD max_corr_lag 0 }
  else Except.error ErroQ2.estabSemDados

/-- The analyzer instance: its only attribute after loading is the raw
dataset `self.dados_brutos`. -/
structure Analisador where
  dados_brutos : DadosBrutos
deriving DecidableEq

/-- The Question 1 method as a state transformer on the analyzer
instance: the source method reads `self.dados_brutos` and assigns no
attribute, so the returned instance is the one it received. -/
def analisar_previsao_preco_ml_st
    (fitO : List (List ℚ × ℚ) → List ℚ → ℚ) (eps : ℚ)
    (self : Analisador) (categoria_col : String)
    (freq n_lags test_size_semanas : ℕ) :
    Analisador × Except ErroQ1 ResultadoQ1 :=
  (self, analisar_previsao_preco_ml fitO eps self.dados_brutos categoria_col
    freq n_lags test_size_semanas)

/-- The Question 2 method as a state transformer on the analyzer
instance: the source method reads `self.dados_brutos` and assigns no
attribute, so the returned instance is the one it received. -/
def analisar_lideranca_preco_st
    (adfO : List ℚ → ℚ) (grangerO : List (ℚ × ℚ) → ℕ → ℚ)
    (ccfO : List ℚ → List ℚ → List ℚ)
    (self : Analisador) (produto_id estab_A estab_B freq max_lag : ℕ) :
    Analisador × Except ErroQ2 ResultadoQ2 :=
  (self, analisar_lideranca_preco adfO grangerO ccfO self.dados_brutos
    produto_id estab_A estab_B freq max_lag)

/-- A sample row used by concrete instantiations: one observation of
product 0 at establishment 0 carrying the flag column `Classe_X`. -/
def linhaW (t : ℕ) (v : ℚ) : Linha :=
  { data := t, produto := 0, estabelecimento := 0, ppk := v,
    categorias := [("Classe_X", true)] }

/-- A sample dataset: six weekly observations of value 1. -/
def dadosW1 : DadosBrutos :=
  { colunas := ["Classe_X"], linhas := (List.range 6).map fun t => linhaW t 1 }

/-- The series the pipeline builds from `dadosW1` at frequency 1. -/
def serieW1 : List (ℕ × ℚ) := [(0, 1), (1, 1), (2, 1), (3, 1), (4, 1), (5, 1)]

/-- Decidable equality on `Except`, so that concrete pipeline runs can
be checked by evaluation. -/
instance exceptDecEq {ε α : Type} [DecidableEq ε] [DecidableEq α] :
    DecidableEq (Except ε α) := fun x y =>
  match x, y with
  | Except.error a, Except.error b =>
    if h : a = b then isTrue (by rw [h])
    else isFalse (by intro hc; cases hc; exact h rfl)
  | Except.error _, Except.ok _ => isFalse (by intro hc; cases hc)
  | Except.ok _, Except.error _ => isFalse (by intro hc; cases hc)
  | Except.ok a, Except.ok b =>
    if h : a = b then isTrue (by rw [h])
    else isFalse (by intro hc; cases hc; exact h rfl)

/-- A concrete three-row lagged feature table with increasing
timestamps, used to instantiate the splitting theorems. -/
def tabelaC2 : List (ℕ × ℚ × List ℚ) :=
  [(4, 10, [9]), (5, 11, [10]), (6, 12, [11])]

/-- A concrete two-entry series used to instantiate the stationarity
theorem. -/
def serieC5 : List (ℕ × ℚ) := [(3, 7), (4, 9)]

/-- A dataset whose only row does not carry the `Classe_X` flag, so the
selector matches zero rows. -/
def dadosW6 : DadosBrutos :=
  { colunas := ["Classe_X"],
    linhas := [{ data := 0, produto := 0, estabelecimento := 0, ppk := 5,
                 categorias := [("Classe_X", false)] }] }

/-- A sample dataset: fourteen weekly observations of value 1. -/
def dadosW7 : DadosBrutos :=
  { colunas := ["Classe_X"], linhas := (List.range 14).map fun t => linhaW t 1 }

/-- The series the pipeline builds from `dadosW7` at frequency 1. -/
def serieW7 : List (ℕ × ℚ) :=
  [(0, 1), (1, 1), (2, 1), (3, 1), (4, 1), (5, 1), (6, 1), (7, 1),
   (8, 1), (9, 1), (10, 1), (11, 1), (12, 1), (13, 1)]

/-- A sample dataset for the lead-lag pipeline: product 7 observed at
two establishments (ids 0 and 1) at weeks 0 and 20, so the weekly
resample grid spans 21 periods with the gaps forward-filled. -/
def dadosW3 : DadosBrutos :=
  { colunas := [],
    linhas :=
      [{ data := 0, produto := 7, estabelecimento := 0, ppk := 2, categorias := [] },
       { data := 0, produto := 7, estabelecimento := 1, ppk := 3, categorias := [] },
       { data := 20, produto := 7, estabelecimento := 0, ppk := 2, categorias := [] },
       { data := 20, produto := 7, estabelecimento := 1, ppk := 3, categorias := [] }] }

/-- The result of the lead-lag run on `dadosW3` with `max_lag = 1` under
the oracles: ADF p-value 0.01 (both series kept), per-lag Granger
p-value 0.03 (significant in both directions), and cross-correlations
`[0, 1/10, -1/5]`. -/
def RW3 : ResultadoQ2 :=
  { p_valor_min_A_B := 3 / 100, p_valor_min_B_A := 3 / 100,
    sig_A_B := true, sig_B_A := true,
    max_corr_lag := 1, max_corr_val := 1 / 10 }

/-- A sample dataset whose last period's value is exactly zero. -/
def dadosW9 : DadosBrutos :=
  { colunas := ["Classe_X"], linhas := [linhaW 0 5, linhaW 1 5, linhaW 2 0] }

/-- The series the pipeline builds from `dadosW9` at frequency 1. -/
def serieW9 : List (ℕ × ℚ) := [(0, 5), (1, 5), (2, 0)]

/-- The result of the evaluation run on `dadosW9` with `n_lags = 1`,
`k = 1`, a constant-one regression oracle and sklearn's machine epsilon
`2⁻⁵²`: the zero actual makes MAPE the ordinary huge number `2⁵²`. -/
def R9 : ResultadoQ1 :=
  { y_test := [0], predicoes := [1], mape := 2 ^ 52, mse := 1,
    objetivo_atingido := false, proxima_previsao := 1 }

/-! ## Theorems -/

theorem preparar_dadosW1_eq :
    preparar_serie_temporal dadosW1 "Classe_X" 1 = Except.ok serieW1 := by
  simp only [preparar_serie_temporal, dadosW1, linhaW, serieW1, resample_mean,
    ffill, dropna_opt, mean_opt, mean_list]
  norm_num [List.range, List.filter, List.filterMap]

theorem preparar_dadosW7_eq :
    preparar_serie_temporal dadosW7 "Classe_X" 1 = Except.ok serieW7 := by
  simp only [preparar_serie_temporal, dadosW7, linhaW, serieW7, resample_mean,
    ffill, dropna_opt, mean_opt, mean_list]
  norm_num [List.range, List.filter, List.filterMap]

theorem criar_features_lags_eq (serie : List (ℕ × ℚ)) (n : ℕ) :
    criar_features_lags serie n =
      (List.range serie.length).filterMap fun t =>
        if n ≤ t then
          some ((serie.getD t (0, 0)).1, (serie.getD t (0, 0)).2,
            (List.range n).map fun i => (serie.map Prod.snd).getD (t - (i + 1)) 0)
        else none := by
  simp only [criar_features_lags]
  congr 1
  funext t
  by_cases h : n ≤ t
  · have hall : ((List.range n).map fun i =>
        shiftLag (serie.map Prod.snd) (i + 1) t).all Option.isSome = true := by
      rw [List.all_eq_true]
      intro o ho
      rcases List.mem_map.mp ho with ⟨i, hi, rfl⟩
      have hit : i + 1 ≤ t := Nat.succ_le_of_lt (lt_of_lt_of_le (List.mem_range.mp hi) h)
      simp [shiftLag, hit]
    have hmaps : List.map ((fun o => o.getD 0) ∘ fun i =>
        shiftLag (serie.map Prod.snd) (i + 1) t) (List.range n) =
        List.map (fun i => (serie.map Prod.snd).getD (t - (i + 1)) 0)
          (List.range n) := by
      apply List.map_congr_left
      intro i hi
      have hit : i + 1 ≤ t := Nat.succ_le_of_lt (lt_of_lt_of_le (List.mem_range.mp hi) h)
      simp [shiftLag, hit]
    rw [if_pos hall, if_pos h, List.map_map, hmaps]
  · have hnall : ¬ (((List.range n).map fun i =>
        shiftLag (serie.map Prod.snd) (i + 1) t).all Option.isSome = true) := by
      intro hall
      rw [List.all_eq_true] at hall
      have ht : t < n := Nat.lt_of_not_le h
      have := hall (shiftLag (serie.map Prod.snd) (t + 1) t)
        (List.mem_map.mpr ⟨t, List.mem_range.mpr ht, rfl⟩)
      simp [shiftLag] at this
    rw [if_neg hnall, if_neg h]

theorem filterMap_range_if {β : Type} (L n : ℕ) (g : ℕ → β) :
    ((List.range L).filterMap fun t => if n ≤ t then some (g t) else none) =
      (List.range' n (L - n)).map g := by
  rcases Nat.le_total L n with h | h
  · have h0 : L - n = 0 := Nat.sub_eq_zero_of_le h
    rw [h0]
    simp only [List.range'_zero, List.map_nil]
    rw [List.filterMap_eq_nil_iff]
    intro t ht
    have ht' : t < n := lt_of_lt_of_le (List.mem_range.mp ht) h
    rw [if_neg (Nat.not_le.mpr ht')]
  · conv_lhs => rw [show L = n + (L - n) from (Nat.add_sub_cancel' h).symm, List.range_add]
    rw [List.filterMap_append]
    have h1 : (List.range n).filterMap
        (fun t => if n ≤ t then some (g t) else none) = [] := by
      rw [List.filterMap_eq_nil_iff]
      intro t ht
      rw [if_neg (Nat.not_le.mpr (List.mem_range.mp ht))]
    rw [h1, List.nil_append, List.filterMap_map]
    have h2 : ((fun t => if n ≤ t then some (g t) else none) ∘ fun x => n + x)
        = some ∘ fun x => g (n + x) := by
      funext i
      simp [Nat.le_add_right]
    rw [h2, List.filterMap_eq_map, List.range'_eq_map_range, List.map_map]
    rfl

theorem criar_features_lags_length (serie : List (ℕ × ℚ)) (n : ℕ) :
    (criar_features_lags serie n).length = serie.length - n := by
  rw [criar_features_lags_eq, filterMap_range_if, List.length_map, List.length_range']

theorem criar_features_lags_proj (serie : List (ℕ × ℚ)) (n : ℕ) :
    (criar_features_lags serie n).map (fun r => (r.1, r.2.1)) = serie.drop n := by
  rw [criar_features_lags_eq, filterMap_range_if, List.map_map]
  apply List.ext_getElem
  · simp [List.length_range', List.length_drop]
  · intro i h1 h2
    have hi : n + i < serie.length := by
      rw [List.length_drop] at h2
      omega
    rw [List.getElem_map, List.getElem_range', List.getElem_drop]
    simp only [Function.comp, Nat.one_mul]
    rw [List.getD_eq_getElem _ _ hi]

theorem foldl_min_le_self {α : Type} [LinearOrder α] {a : α} {l : List α} :
    l.foldl min a ≤ a := by
  induction l generalizing a with
  | nil => exact le_refl a
  | cons y l ih => exact le_trans ih (min_le_left a y)

theorem foldl_min_le_of_mem {α : Type} [LinearOrder α] {a x : α} {l : List α}
    (hx : x ∈ l) : l.foldl min a ≤ x := by
  induction l generalizing a with
  | nil => cases hx
  | cons y l ih =>
    rcases List.mem_cons.mp hx with rfl | hx'
    · rw [List.foldl_cons]
      exact le_trans (@foldl_min_le_self _ _ (min a x) l) (min_le_right a x)
    · exact ih hx'

theorem foldl_min_mem {α : Type} [LinearOrder α] (a : α) (l : List α) :
    l.foldl min a = a ∨ l.foldl min a ∈ l := by
  induction l generalizing a with
  | nil => exact Or.inl rfl
  | cons y t ih =>
    rcases ih (min a y) with h | h
    · rcases min_choice a y with hc | hc
      · exact Or.inl (by rw [List.foldl_cons, h, hc])
      · refine Or.inr ?_
        rw [List.foldl_cons, h, hc]
        exact List.mem_cons_self y t
    · exact Or.inr (List.mem_cons_of_mem y h)

theorem le_foldl_max_self {α : Type} [LinearOrder α] {a : α} {l : List α} :
    a ≤ l.foldl max a := by
  induction l generalizing a with
  | nil => exact le_refl a
  | cons y l ih => exact le_trans (le_max_left a y) ih

theorem python_min_le {l : List ℚ} {x : ℚ} (hx : x ∈ l) : python_min l ≤ x := by
  match l, hx with
  | a :: t, hx =>
    rcases List.mem_cons.mp hx with rfl | hx'
    · exact foldl_min_le_self
    · exact foldl_min_le_of_mem hx'

theorem python_min_mem {l : List ℚ} (h : l ≠ []) : python_min l ∈ l := by
  match l, h with
  | a :: t, _ =>
    rcases foldl_min_mem a t with h1 | h1
    · simp only [python_min]
      rw [h1]
      exact List.mem_cons_self a t
    · simp only [python_min]
      exact List.mem_cons_of_mem a h1

theorem resample_mean_exists_some (freq : ℕ) (rows : List (ℕ × ℚ))
    (hne : rows ≠ []) : ∃ x ∈ resample_mean freq rows, x.2.isSome = true := by
  match rows, hne with
  | r0 :: rest, _ =>
    simp only [resample_mean]
    refine ⟨(r0.1 / freq, mean_opt ((((r0 :: rest).filter fun r =>
      r.1 / freq = r0.1 / freq)).map Prod.snd)), ?_, ?_⟩
    · apply List.mem_map.mpr
      refine ⟨r0.1 / freq, ?_, rfl⟩
      have hmin : ((r0 :: rest).map fun r => r.1 / freq).foldl min (r0.1 / freq)
          ≤ r0.1 / freq := foldl_min_le_self
      have hmax : r0.1 / freq
          ≤ ((r0 :: rest).map fun r => r.1 / freq).foldl max (r0.1 / freq) :=
        le_foldl_max_self
      rw [List.mem_range']
      exact ⟨r0.1 / freq -
        ((r0 :: rest).map fun r => r.1 / freq).foldl min (r0.1 / freq),
        by omega, by omega⟩
    · have hmem : r0 ∈ (r0 :: rest).filter fun r =>
          decide (r.1 / freq = r0.1 / freq) := by
        apply List.mem_filter.mpr
        exact ⟨List.mem_cons_self r0 rest, by simp⟩
      have hne2 : ((r0 :: rest).filter fun r =>
          decide (r.1 / freq = r0.1 / freq)) ≠ [] := by
        intro hnil
        rw [hnil] at hmem
        cases hmem
      simp only [mean_opt]
      rw [if_neg]
      · rfl
      · simp only [List.isEmpty_iff, List.map_eq_nil_iff]
        exact hne2

theorem ffill_exists_some (l : List (ℕ × Option ℚ)) (u : Option ℚ)
    (h : ∃ x ∈ l, x.2.isSome = true) :
    ∃ y ∈ ffill u l, y.2.isSome = true := by
  induction l generalizing u with
  | nil =>
    rcases h with ⟨x, hx, _⟩
    cases hx
  | cons hd tl ih =>
    match hd with
    | (t, some v) => exact ⟨(t, some v), by simp [ffill], rfl⟩
    | (t, none) =>
      rcases h with ⟨x, hx, hs⟩
      rcases List.mem_cons.mp hx with rfl | hx'
      · cases hs
      · rcases ih u ⟨x, hx', hs⟩ with ⟨y, hy, hys⟩
        refine ⟨y, ?_, hys⟩
        simp only [ffill]
        exact List.mem_cons_of_mem _ hy

theorem dropna_opt_ne_nil {l : List (ℕ × Option ℚ)}
    (h : ∃ x ∈ l, x.2.isSome = true) : dropna_opt l ≠ [] := by
  intro hnil
  rcases h with ⟨x, hx, hs⟩
  rw [dropna_opt, List.filterMap_eq_nil_iff] at hnil
  have h2 := hnil x hx
  match x, hs, h2 with
  | (t, some v), _, h3 => cases h3

theorem preparar_ok_ne_nil {dados : DadosBrutos} {cat : String} {freq : ℕ}
    {serie : List (ℕ × ℚ)}
    (hok : preparar_serie_temporal dados cat freq = Except.ok serie) :
    serie ≠ [] := by
  simp only [preparar_serie_temporal] at hok
  by_cases h1 : cat ∈ dados.colunas
  · rw [if_pos h1] at hok
    by_cases h2 : (dados.linhas.filter fun l =>
        (l.categorias.lookup cat).getD false).isEmpty = true
    · rw [if_pos h2] at hok
      cases hok
    · rw [if_neg h2] at hok
      have hser := Except.ok.inj hok
      have hne : (dados.linhas.filter fun l => (l.categorias.lookup cat).getD false)
          ≠ [] := by
        intro hnil
        rw [← List.isEmpty_iff] at hnil
        exact absurd hnil h2
      have hmapne : ((dados.linhas.filter fun l =>
          (l.categorias.lookup cat).getD false).map fun l => (l.data, l.ppk)) ≠ [] := by
        simpa [List.map_eq_nil_iff] using hne
      rw [← hser]
      exact dropna_opt_ne_nil (ffill_exists_some _ none
        (resample_mean_exists_some freq _ hmapne))
  · rw [if_neg h1] at hok
    cases hok

/-- C1: building the lagged feature table from a constructed series drops
exactly the first `n_lags` rows, so when the series is longer than
`n_lags` the table has `length − n_lags` rows; when the series is no
longer than `n_lags` the table is empty and the forecast pipeline fails
with its data-insufficiency error. -/
theorem C1_lag_table_row_count
    (fitO : List (List ℚ × ℚ) → List ℚ → ℚ) (eps : ℚ)
    (dados : DadosBrutos) (categoria_col : String)
    (freq n_lags test_size : ℕ) (serie : List (ℕ × ℚ))
    (hok : preparar_serie_temporal dados categoria_col freq = Except.ok serie) :
    (n_lags < serie.length →
      (criar_features_lags serie n_lags).length = serie.length - n_lags) ∧
    (serie.length ≤ n_lags → 1 ≤ n_lags →
      criar_features_lags serie n_lags = [] ∧
      analisar_previsao_preco_ml fitO eps dados categoria_col freq n_lags test_size
        = Except.error ErroQ1.dadosInsuficientes) := by
  constructor
  · intro _
    exact criar_features_lags_length serie n_lags
  · intro hle hpos
    have hlen : (criar_features_lags serie n_lags).length = 0 := by
      rw [criar_features_lags_length]
      omega
    have hnil : criar_features_lags serie n_lags = [] := List.length_eq_zero.mp hlen
    refine ⟨hnil, ?_⟩
    have hne := preparar_ok_ne_nil hok
    simp only [analisar_previsao_preco_ml, hok]
    rw [if_neg (by simpa [List.isEmpty_iff] using hne)]
    rw [if_pos (by rw [hlen]; omega)]

/-- Witness for C1 at a concrete six-period series: with `n_lags = 2` the
table has 4 rows; with `n_lags = 7` the table is empty and the pipeline
reports insufficiency. -/
theorem C1_lag_table_row_count_witness :
    ((criar_features_lags serieW1 2).length = serieW1.length - 2) ∧
    (criar_features_lags serieW1 7 = [] ∧
      analisar_previsao_preco_ml (fun _ _ => 0) (1 / 2 ^ 52) dadosW1 "Classe_X" 1 7 3
        = Except.error ErroQ1.dadosInsuficientes) := by
  have hok := preparar_dadosW1_eq
  refine ⟨?_, ?_⟩
  · exact (C1_lag_table_row_count (fun _ _ => 0) (1 / 2 ^ 52) dadosW1 "Classe_X"
      1 2 3 serieW1 hok).1 (by decide)
  · exact (C1_lag_table_row_count (fun _ _ => 0) (1 / 2 ^ 52) dadosW1 "Classe_X"
      1 7 3 serieW1 hok).2 (by decide) (by decide)

/-- C2 counterexample: the held-out window size `k = 0` satisfies
`k < row count`, yet the source's slice `X.iloc[:-0]` is the empty slice
`X[:0]`, not the spec's "all rows except the last 0": the code's split
disagrees with the claim at this input. -/
theorem C2_temporal_split_counterexample :
    0 < tabelaC2.length ∧
    (splitTreinoTeste tabelaC2 0).1 ≠ spec_train_rows tabelaC2 0 := by
  constructor
  · decide
  · intro h
    have h0 : (splitTreinoTeste tabelaC2 0).1 = [] := rfl
    have h1 : spec_train_rows tabelaC2 0 = tabelaC2 := by
      simp [spec_train_rows]
    rw [h0, h1] at h
    cases h

/-- C2 (amended): for a positive held-out window size `k` smaller than
the row count, the evaluation split is exactly the spec's training
prefix and test suffix, their concatenation is the original table (no
shuffling), and every test row's timestamp is strictly later than every
training row's timestamp. -/
theorem C2_temporal_split
    (tabela : List (ℕ × ℚ × List ℚ)) (k : ℕ)
    (hk : 1 ≤ k) (hlt : k < tabela.length)
    (hsorted : (tabela.map fun r => r.1).Pairwise (· < ·)) :
    splitTreinoTeste tabela k
      = (spec_train_rows tabela k, spec_test_rows tabela k) ∧
    (splitTreinoTeste tabela k).1 ++ (splitTreinoTeste tabela k).2 = tabela ∧
    ∀ r ∈ (splitTreinoTeste tabela k).1, ∀ s ∈ (splitTreinoTeste tabela k).2,
      r.1 < s.1 := by
  have hk0 : k ≠ 0 := Nat.one_le_iff_ne_zero.mp hk
  have hsplit : splitTreinoTeste tabela k
      = (tabela.take (tabela.length - k), tabela.drop (tabela.length - k)) := by
    simp [splitTreinoTeste, ilocUpToNeg, ilocFromNeg, hk0]
  refine ⟨by rw [hsplit]; rfl, ?_, ?_⟩
  · rw [hsplit]
    exact List.take_append_drop _ tabela
  · intro r hr s hs
    rw [hsplit] at hr hs
    have hperm : tabela.map (fun r => r.1)
        = (tabela.take (tabela.length - k)).map (fun r => r.1)
          ++ (tabela.drop (tabela.length - k)).map (fun r => r.1) := by
      rw [← List.map_append, List.take_append_drop]
    rw [hperm, List.pairwise_append] at hsorted
    exact hsorted.2.2 r.1 (List.mem_map_of_mem _ hr) s.1 (List.mem_map_of_mem _ hs)

/-- Witness for the amended C2 at the concrete table and `k = 1`. -/
theorem C2_temporal_split_witness :
    splitTreinoTeste tabelaC2 1
      = (spec_train_rows tabelaC2 1, spec_test_rows tabelaC2 1) ∧
    (splitTreinoTeste tabelaC2 1).1 ++ (splitTreinoTeste tabelaC2 1).2 = tabelaC2 ∧
    ∀ r ∈ (splitTreinoTeste tabelaC2 1).1, ∀ s ∈ (splitTreinoTeste tabelaC2 1).2,
      r.1 < s.1 :=
  C2_temporal_split tabelaC2 1 (by decide) (by decide)
    (by simp [tabelaC2, List.pairwise_cons])

/-- C5: the stationarity tester returns the input series unchanged when
the unit-root p-value is at most 0.05; when it exceeds 0.05 it returns
the first difference with the first undefined entry dropped (one fewer
entry, each entry being the gap between consecutive values); the output
is always the series or its once-differenced version. -/
theorem C5_stationarity_policy (adfO : List ℚ → ℚ) (s : List (ℕ × ℚ)) :
    (adfO (s.map Prod.snd) ≤ 1 / 20 → verificar_estacionariedade adfO s = s) ∧
    (1 / 20 < adfO (s.map Prod.snd) →
      verificar_estacionariedade adfO s = diff_dropna s ∧
      (diff_dropna s).length = s.length - 1 ∧
      ∀ i, i + 1 < s.length →
        (diff_dropna s).getD i (0, 0)
          = ((s.getD (i + 1) (0, 0)).1,
             (s.getD (i + 1) (0, 0)).2 - (s.getD i (0, 0)).2)) ∧
    (verificar_estacionariedade adfO s = s ∨
      verificar_estacionariedade adfO s = diff_dropna s) := by
  have hdlen : (diff_dropna s).length = s.length - 1 := by
    simp only [diff_dropna, List.length_map, List.length_zip, List.length_drop]
    omega
  refine ⟨?_, ?_, ?_⟩
  · intro h
    simp only [verificar_estacionariedade]
    rw [if_neg (not_lt.mpr h)]
  · intro h
    refine ⟨by simp only [verificar_estacionariedade]; rw [if_pos h], hdlen, ?_⟩
    intro i hi
    have hi1 : i < (s.zip (s.drop 1)).length := by
      simp only [List.length_zip, List.length_drop]
      omega
    have hi2 : i < (diff_dropna s).length := by
      rw [hdlen]; omega
    have hi3 : i < s.length := by omega
    have hi4 : i < (s.drop 1).length := by
      simp only [List.length_drop]; omega
    rw [List.getD_eq_getElem _ _ hi2, List.getD_eq_getElem _ _ (by omega : i + 1 < s.length),
      List.getD_eq_getElem _ _ hi3]
    simp only [diff_dropna, List.getElem_map, List.getElem_zip, List.getElem_drop,
      Nat.add_comm 1 i]
  · simp only [verificar_estacionariedade]
    by_cases h : adfO (s.map Prod.snd) > 1 / 20
    · rw [if_pos h]
      exact Or.inr rfl
    · rw [if_neg h]
      exact Or.inl rfl

/-- Witness for C5 at a concrete series under a stationary oracle
(p = 0.01) and a non-stationary oracle (p = 0.5). -/
theorem C5_stationarity_policy_witness :
    verificar_estacionariedade (fun _ => 1 / 100) serieC5 = serieC5 ∧
    verificar_estacionariedade (fun _ => 1 / 2) serieC5 = diff_dropna serieC5 := by
  constructor
  · exact (C5_stationarity_policy (fun _ => 1 / 100) serieC5).1 (by norm_num)
  · exact ((C5_stationarity_policy (fun _ => 1 / 2) serieC5).2.1 (by norm_num)).1

/-- C6: a category selector that is a real column of the dataset but
matches zero rows makes series construction fail with the specific
no-data (empty-selection) error, and the enclosing forecast analysis
reports exactly that error instead of a successful result. -/
theorem C6_empty_selection
    (fitO : List (List ℚ × ℚ) → List ℚ → ℚ) (eps : ℚ)
    (dados : DadosBrutos) (cat : String) (freq n_lags k : ℕ)
    (hcol : cat ∈ dados.colunas)
    (hempty : dados.linhas.filter (fun l => (l.categorias.lookup cat).getD false) = []) :
    preparar_serie_temporal dados cat freq = Except.error ErroQ1.nenhumDado ∧
    analisar_previsao_preco_ml fitO eps dados cat freq n_lags k
      = Except.error ErroQ1.nenhumDado := by
  have hprep : preparar_serie_temporal dados cat freq
      = Except.error ErroQ1.nenhumDado := by
    simp only [preparar_serie_temporal]
    rw [if_pos hcol, if_pos (List.isEmpty_iff.mpr hempty)]
  exact ⟨hprep, by simp only [analisar_previsao_preco_ml, hprep]⟩

/-- Witness for C6 at a concrete dataset whose single row does not carry
the selected flag. -/
theorem C6_empty_selection_witness :
    preparar_serie_temporal dadosW6 "Classe_X" 1 = Except.error ErroQ1.nenhumDado ∧
    analisar_previsao_preco_ml (fun _ _ => 0) (1 / 2 ^ 52) dadosW6 "Classe_X" 1 4 12
      = Except.error ErroQ1.nenhumDado :=
  C6_empty_selection (fun _ _ => 0) (1 / 2 ^ 52) dadosW6 "Classe_X" 1 4 12
    (by decide) (by decide)

/-- C7 counterexample: on a 14-period series with `n_lags = 4`, the lag
table has 10 rows, the window `k = 8` satisfies `k < 10`, and the
training prefix would hold 2 rows (nonempty) — yet the pipeline reports
the data-insufficiency error, because its guard demands
`row count ≥ k + n_lags`, not a nonempty training prefix. -/
theorem C7_insufficiency_counterexample :
    8 < (criar_features_lags serieW7 4).length ∧
    spec_train_rows (criar_features_lags serieW7 4) 8 ≠ [] ∧
    analisar_previsao_preco_ml (fun _ _ => 0) (1 / 2 ^ 52) dadosW7 "Classe_X" 1 4 8
      = Except.error ErroQ1.dadosInsuficientes := by
  have hslen : serieW7.length = 14 := by simp [serieW7]
  have hlen : (criar_features_lags serieW7 4).length = 10 := by
    rw [criar_features_lags_length, hslen]
  refine ⟨by omega, ?_, ?_⟩
  · intro hnil
    have hzero : (spec_train_rows (criar_features_lags serieW7 4) 8).length = 0 := by
      rw [hnil]
      rfl
    rw [spec_train_rows, List.length_take, hlen] at hzero
    omega
  · simp only [analisar_previsao_preco_ml, preparar_dadosW7_eq]
    rw [if_neg (by simp [serieW7, List.isEmpty_iff]), if_pos (by rw [hlen]; omega)]

/-- C7 (amended): for any constructed series, evaluation reports the
data-insufficiency error exactly when the lag table has fewer than
`k + n_lags` rows — equivalently, when the training prefix would hold
fewer than `n_lags` rows — and otherwise returns a successful result. -/
theorem C7_insufficiency_condition
    (fitO : List (List ℚ × ℚ) → List ℚ → ℚ) (eps : ℚ)
    (dados : DadosBrutos) (cat : String) (freq n_lags k : ℕ)
    (serie : List (ℕ × ℚ))
    (hok : preparar_serie_temporal dados cat freq = Except.ok serie) :
    (analisar_previsao_preco_ml fitO eps dados cat freq n_lags k
        = Except.error ErroQ1.dadosInsuficientes ↔
      (criar_features_lags serie n_lags).length < k + n_lags) ∧
    (k + n_lags ≤ (criar_features_lags serie n_lags).length →
      ∃ r, analisar_previsao_preco_ml fitO eps dados cat freq n_lags k
        = Except.ok r) := by
  have hne := preparar_ok_ne_nil hok
  simp only [analisar_previsao_preco_ml, hok]
  rw [if_neg (by simpa [List.isEmpty_iff] using hne)]
  by_cases hg : (criar_features_lags serie n_lags).length < k + n_lags
  · rw [if_pos hg]
    exact ⟨by simp [hg], fun hle => absurd hg (by omega)⟩
  · rw [if_neg hg]
    refine ⟨⟨fun hcontra => Except.noConfusion hcontra, fun hlt => absurd hlt hg⟩, ?_⟩
    intro _
    exact ⟨_, rfl⟩

/-- Witness for the amended C7 at a concrete six-period series with
`n_lags = 1`, `k = 1`: the guard passes and the run succeeds. -/
theorem C7_insufficiency_condition_witness :
    (analisar_previsao_preco_ml (fun _ _ => 0) (1 / 2 ^ 52) dadosW1 "Classe_X" 1 1 1
        = Except.error ErroQ1.dadosInsuficientes ↔
      (criar_features_lags serieW1 1).length < 1 + 1) ∧
    (1 + 1 ≤ (criar_features_lags serieW1 1).length →
      ∃ r, analisar_previsao_preco_ml (fun _ _ => 0) (1 / 2 ^ 52) dadosW1 "Classe_X" 1 1 1
        = Except.ok r) :=
  C7_insufficiency_condition (fun _ _ => 0) (1 / 2 ^ 52) dadosW1 "Classe_X" 1 1 1
    serieW1 preparar_dadosW1_eq

theorem preparar_dadosW9_eq :
    preparar_serie_temporal dadosW9 "Classe_X" 1 = Except.ok serieW9 := by
  simp only [preparar_serie_temporal, dadosW9, linhaW, serieW9, resample_mean,
    ffill, dropna_opt, mean_opt, mean_list]
  norm_num [List.range, List.filter, List.filterMap]

theorem criar_serieW9_eq :
    criar_features_lags serieW9 1 = [(1, 5, [5]), (2, 0, [5])] := by
  rw [criar_features_lags_eq, filterMap_range_if]
  norm_num [serieW9, List.range',
    show List.range 1 = [0] from rfl]

theorem analisar_dadosW9_run :
    analisar_previsao_preco_ml (fun _ _ => 1) (1 / 2 ^ 52) dadosW9 "Classe_X" 1 1 1
      = Except.ok R9 := by
  simp only [analisar_previsao_preco_ml, preparar_dadosW9_eq]
  rw [if_neg (by simp [serieW9, List.isEmpty_iff])]
  rw [criar_serieW9_eq]
  rw [if_neg (by norm_num)]
  norm_num [ilocUpToNeg, ilocFromNeg, sk_mape, sk_mse, mean_list, R9,
    decide_eq_false_iff_not, abs_of_nonpos, abs_of_nonneg]

/-- C9 counterexample: on a run whose held-out actual value is exactly
zero, the pipeline returns a SUCCESSFUL result whose MAPE is the ordinary
rational `2⁵²` (the zero denominator clamped to sklearn's machine
epsilon) — not a distinct "undefined" state. -/
theorem C9_mape_zero_actual_counterexample :
    analisar_previsao_preco_ml (fun _ _ => 1) (1 / 2 ^ 52) dadosW9 "Classe_X" 1 1 1
      = Except.ok R9 ∧ (0 : ℚ) ∈ R9.y_test ∧ R9.mape = 2 ^ 52 :=
  ⟨analisar_dadosW9_run, by simp [R9], rfl⟩

/-- C9 (amended): in every successful evaluation run the reported MAPE
is sklearn's epsilon-clamped mean — each denominator `max |actual| eps`
is strictly positive even when an actual test value is exactly zero, so
nothing is divided by zero but no distinct undefined state exists
either — and MSE is the usual mean of squared residuals over the same
actual/predicted lists. -/
theorem C9_mape_epsilon_policy
    (fitO : List (List ℚ × ℚ) → List ℚ → ℚ) (eps : ℚ)
    (dados : DadosBrutos) (cat : String) (freq n_lags k : ℕ)
    (r : ResultadoQ1) (heps : 0 < eps)
    (hok : analisar_previsao_preco_ml fitO eps dados cat freq n_lags k
      = Except.ok r) :
    r.mape = sk_mape eps r.y_test r.predicoes ∧
    r.mse = sk_mse r.y_test r.predicoes ∧
    (∀ t ∈ r.y_test, 0 < max |t| eps) ∧
    r.y_test.length = r.predicoes.length := by
  simp only [analisar_previsao_preco_ml] at hok
  split at hok
  · cases hok
  · split_ifs at hok with h1 h2
    have hr := Except.ok.inj hok
    subst hr
    refine ⟨rfl, rfl, ?_, ?_⟩
    · intro t _
      exact lt_of_lt_of_le heps (le_max_right _ _)
    · simp only [List.length_map]

/-- Witness for the amended C9 at the concrete zero-actual run. -/
theorem C9_mape_epsilon_policy_witness :
    R9.mape = sk_mape (1 / 2 ^ 52) R9.y_test R9.predicoes ∧
    R9.mse = sk_mse R9.y_test R9.predicoes ∧
    (∀ t ∈ R9.y_test, 0 < max |t| (1 / 2 ^ 52)) ∧
    R9.y_test.length = R9.predicoes.length :=
  C9_mape_epsilon_policy (fun _ _ => 1) (1 / 2 ^ 52) dadosW9 "Classe_X" 1 1 1 R9
    (by norm_num) analisar_dadosW9_run

/-- C10: both analysis methods leave the analyzer instance — hence the
raw dataset it holds — unchanged: the state they return is exactly the
state they received, for every argument combination and every oracle.
In the embedding each method threads the instance state explicitly and
never constructs a modified one, mirroring the source methods, which
read `self.dados_brutos` and assign no attribute. -/
theorem C10_raw_dataset_immutable
    (fitO : List (List ℚ × ℚ) → List ℚ → ℚ) (eps : ℚ)
    (adfO : List ℚ → ℚ) (grangerO : List (ℚ × ℚ) → ℕ → ℚ)
    (ccfO : List ℚ → List ℚ → List ℚ)
    (a : Analisador) (cat : String)
    (freq n_lags k produto_id estab_A estab_B max_lag : ℕ) :
    (analisar_previsao_preco_ml_st fitO eps a cat freq n_lags k).1 = a ∧
    (analisar_lideranca_preco_st adfO grangerO ccfO a produto_id estab_A estab_B
      freq max_lag).1 = a :=
  ⟨rfl, rfl⟩

/-- C8: when the product exists and both establishments have rows for
it, the lead-lag analysis fails with the paired-data-insufficiency error
exactly when the aligned paired series is shorter than `max_lag + 20`;
with at least `max_lag + 20` aligned rows it proceeds past the check and
returns a successful result. -/
theorem C8_paired_data_guard
    (adfO : List ℚ → ℚ) (grangerO : List (ℚ × ℚ) → ℕ → ℚ)
    (ccfO : List ℚ → List ℚ → List ℚ) (dados : DadosBrutos)
    (produto_id estab_A estab_B freq max_lag : ℕ)
    (hprod : (dados.linhas.filter fun l => decide (l.produto = produto_id)) ≠ [])
    (hA : estab_A ∈ (dados.linhas.filter fun l =>
      decide (l.produto = produto_id)).map Linha.estabelecimento)
    (hB : estab_B ∈ (dados.linhas.filter fun l =>
      decide (l.produto = produto_id)).map Linha.estabelecimento) :
    (analisar_lideranca_preco adfO grangerO ccfO dados produto_id estab_A estab_B
        freq max_lag = Except.error ErroQ2.dadosInsuficientes ↔
      (dados_pares dados produto_id estab_A estab_B freq).length < max_lag + 20) ∧
    (max_lag + 20 ≤ (dados_pares dados produto_id estab_A estab_B freq).length →
      ∃ r, analisar_lideranca_preco adfO grangerO ccfO dados produto_id estab_A
        estab_B freq max_lag = Except.ok r) := by
  simp only [analisar_lideranca_preco]
  rw [if_neg (by simpa [List.isEmpty_iff] using hprod)]
  rw [if_pos ⟨hA, hB⟩]
  by_cases hg : (dados_pares dados produto_id estab_A estab_B freq).length
      < max_lag + 20
  · rw [if_pos hg]
    exact ⟨by simp [hg], fun h => absurd hg (by omega)⟩
  · rw [if_neg hg]
    exact ⟨⟨fun hc => Except.noConfusion hc, fun h => absurd h hg⟩,
      fun _ => ⟨_, rfl⟩⟩

/-- Witness for C8: with `max_lag = 5` the 21 aligned rows of the
concrete paired dataset are fewer than `5 + 20`, and the equivalence and
the success clause hold at this instance. -/
theorem C8_paired_data_guard_witness :
    (analisar_lideranca_preco (fun _ => 1 / 100) (fun _ _ => 3 / 100)
        (fun _ _ => [0, 1 / 10, -1 / 5]) dadosW3 7 0 1 1 5
        = Except.error ErroQ2.dadosInsuficientes ↔
      (dados_pares dadosW3 7 0 1 1).length < 5 + 20) ∧
    (5 + 20 ≤ (dados_pares dadosW3 7 0 1 1).length →
      ∃ r, analisar_lideranca_preco (fun _ => 1 / 100) (fun _ _ => 3 / 100)
        (fun _ _ => [0, 1 / 10, -1 / 5]) dadosW3 7 0 1 1 5 = Except.ok r) :=
  C8_paired_data_guard (fun _ => 1 / 100) (fun _ _ => 3 / 100)
    (fun _ _ => [0, 1 / 10, -1 / 5]) dadosW3 7 0 1 1 5
    (by decide) (by decide) (by decide)

/-- C3: in every successful lead-lag run with `max_lag ≥ 1`, the reported
p-value of each direction is the minimum over lag orders `1..max_lag` of
that direction's per-lag Granger p-value (it is a lower bound of them and
attained at some tested lag), and the direction is flagged significant
iff that minimum is below 0.05. -/
theorem C3_granger_min_pvalue
    (adfO : List ℚ → ℚ) (grangerO : List (ℚ × ℚ) → ℕ → ℚ)
    (ccfO : List ℚ → List ℚ → List ℚ) (dados : DadosBrutos)
    (produto_id estab_A estab_B freq max_lag : ℕ) (r : ResultadoQ2)
    (hml : 1 ≤ max_lag)
    (hok : analisar_lideranca_preco adfO grangerO ccfO dados produto_id estab_A
      estab_B freq max_lag = Except.ok r) :
    ((∀ lag, 1 ≤ lag → lag ≤ max_lag →
        r.p_valor_min_A_B ≤ grangerO
          ((dados_estacionarios adfO dados produto_id estab_A estab_B freq).map
            fun x => (x.2.2, x.2.1)) lag) ∧
      (∃ lag, 1 ≤ lag ∧ lag ≤ max_lag ∧
        r.p_valor_min_A_B = grangerO
          ((dados_estacionarios adfO dados produto_id estab_A estab_B freq).map
            fun x => (x.2.2, x.2.1)) lag) ∧
      (r.sig_A_B = true ↔ r.p_valor_min_A_B < 1 / 20)) ∧
    ((∀ lag, 1 ≤ lag → lag ≤ max_lag →
        r.p_valor_min_B_A ≤ grangerO
          ((dados_estacionarios adfO dados produto_id estab_A estab_B freq).map
            fun x => (x.2.1, x.2.2)) lag) ∧
      (∃ lag, 1 ≤ lag ∧ lag ≤ max_lag ∧
        r.p_valor_min_B_A = grangerO
          ((dados_estacionarios adfO dados produto_id estab_A estab_B freq).map
            fun x => (x.2.1, x.2.2)) lag) ∧
      (r.sig_B_A = true ↔ r.p_valor_min_B_A < 1 / 20)) := by
  have hrange : ∀ lag : ℕ, 1 ≤ lag → lag ≤ max_lag →
      lag ∈ List.range' 1 max_lag := by
    intro lag h1 h2
    rw [List.mem_range']
    exact ⟨lag - 1, by omega, by omega⟩
  have hnil : List.range' 1 max_lag ≠ [] := by
    intro hc
    have hlen : (List.range' 1 max_lag).length = max_lag := by
      simp [List.length_range']
    rw [hc] at hlen
    simp at hlen
    omega
  simp only [analisar_lideranca_preco] at hok
  split_ifs at hok with h1 h2 h3
  have hr := Except.ok.inj hok
  subst hr
  constructor
  · refine ⟨?_, ?_, by simp⟩
    · intro lag hl1 hl2
      exact python_min_le (List.mem_map.mpr ⟨lag, hrange lag hl1 hl2, rfl⟩)
    · have hmem := python_min_mem (l := (List.range' 1 max_lag).map fun lag =>
        grangerO ((dados_estacionarios adfO dados produto_id estab_A estab_B
          freq).map fun x => (x.2.2, x.2.1)) lag)
        (by simpa [List.map_eq_nil_iff] using hnil)
      rcases List.mem_map.mp hmem with ⟨lag, hlag, heq⟩
      rcases List.mem_range'.mp hlag with ⟨i, hi, hlag_eq⟩
      exact ⟨lag, by omega, by omega, heq.symm⟩
  · refine ⟨?_, ?_, by simp⟩
    · intro lag hl1 hl2
      exact python_min_le (List.mem_map.mpr ⟨lag, hrange lag hl1 hl2, rfl⟩)
    · have hmem := python_min_mem (l := (List.range' 1 max_lag).map fun lag =>
        grangerO ((dados_estacionarios adfO dados produto_id estab_A estab_B
          freq).map fun x => (x.2.1, x.2.2)) lag)
        (by simpa [List.map_eq_nil_iff] using hnil)
      rcases List.mem_map.mp hmem with ⟨lag, hlag, heq⟩
      rcases List.mem_range'.mp hlag with ⟨i, hi, hlag_eq⟩
      exact ⟨lag, by omega, by omega, heq.symm⟩

theorem analisar_dadosW3_run :
    analisar_lideranca_preco (fun _ => 1 / 100) (fun _ _ => 3 / 100)
      (fun _ _ => [0, 1 / 10, -1 / 5]) dadosW3 7 0 1 1 1 = Except.ok RW3 := by
  norm_num [analisar_lideranca_preco, dados_estacionarios, serie_A_est,
    serie_B_est, ccf_vals, dados_pares, verificar_estacionariedade, alinhar,
    pivot_index, pivot_val, resample_pares, ffill_pares, dropna_pares,
    python_min, np_argmax, argmaxFrom, mean_opt, mean_list, diff_dropna,
    dadosW3, RW3, List.range', List.filter, List.filterMap, List.dedup,
    List.lookup, List.foldl, decide_eq_true_eq]

/-- Witness for C3 at the concrete paired dataset with `max_lag = 1` and
constant-0.03 Granger p-values: both directions report 0.03 and are
flagged significant. -/
theorem C3_granger_min_pvalue_witness :
    ((∀ lag, 1 ≤ lag → lag ≤ 1 → RW3.p_valor_min_A_B ≤ 3 / 100) ∧
      (∃ lag, 1 ≤ lag ∧ lag ≤ 1 ∧ RW3.p_valor_min_A_B = 3 / 100) ∧
      (RW3.sig_A_B = true ↔ RW3.p_valor_min_A_B < 1 / 20)) ∧
    ((∀ lag, 1 ≤ lag → lag ≤ 1 → RW3.p_valor_min_B_A ≤ 3 / 100) ∧
      (∃ lag, 1 ≤ lag ∧ lag ≤ 1 ∧ RW3.p_valor_min_B_A = 3 / 100) ∧
      (RW3.sig_B_A = true ↔ RW3.p_valor_min_B_A < 1 / 20)) :=
  C3_granger_min_pvalue (fun _ => 1 / 100) (fun _ _ => 3 / 100)
    (fun _ _ => [0, 1 / 10, -1 / 5]) dadosW3 7 0 1 1 1 RW3 (le_refl 1)
    analisar_dadosW3_run

theorem argmaxFrom_ge_best (best : ℕ × ℚ) (i : ℕ) (l : List ℚ) :
    best.2 ≤ (argmaxFrom best i l).2 := by
  induction l generalizing best i with
  | nil => exact le_refl _
  | cons w t ih =>
    simp only [argmaxFrom]
    by_cases h : best.2 < w
    · rw [if_pos h]
      exact le_trans (le_of_lt h) (ih (i, w) (i + 1))
    · rw [if_neg h]
      exact ih best (i + 1)

theorem argmaxFrom_ge_mem (best : ℕ × ℚ) (i : ℕ) (l : List ℚ) :
    ∀ v ∈ l, v ≤ (argmaxFrom best i l).2 := by
  induction l generalizing best i with
  | nil =>
    intro v hv
    cases hv
  | cons w t ih =>
    intro v hv
    simp only [argmaxFrom]
    by_cases h : best.2 < w
    · rw [if_pos h]
      rcases List.mem_cons.mp hv with rfl | hv'
      · exact argmaxFrom_ge_best (i, v) (i + 1) t
      · exact ih (i, w) (i + 1) v hv'
    · rw [if_neg h]
      rcases List.mem_cons.mp hv with rfl | hv'
      · exact le_trans (not_lt.mp h) (argmaxFrom_ge_best best (i + 1) t)
      · exact ih best (i + 1) v hv'

theorem argmaxFrom_eq_best (best : ℕ × ℚ) (i : ℕ) (l : List ℚ)
    (h : (argmaxFrom best i l).2 ≤ best.2) : argmaxFrom best i l = best := by
  induction l generalizing best i with
  | nil => rfl
  | cons w t ih =>
    simp only [argmaxFrom] at h ⊢
    by_cases hw : best.2 < w
    · rw [if_pos hw] at h ⊢
      have hge := argmaxFrom_ge_best (i, w) (i + 1) t
      exact absurd (lt_of_le_of_lt h hw) (not_lt.mpr hge)
    · rw [if_neg hw] at h ⊢
      exact ih best (i + 1) h

theorem argmaxFrom_mem (best : ℕ × ℚ) (i : ℕ) (l : List ℚ) :
    argmaxFrom best i l = best ∨
      ∃ j, j < l.length ∧ (argmaxFrom best i l).1 = i + j ∧
        (argmaxFrom best i l).2 = l.getD j 0 := by
  induction l generalizing best i with
  | nil => exact Or.inl rfl
  | cons w t ih =>
    simp only [argmaxFrom]
    by_cases hw : best.2 < w
    · rw [if_pos hw]
      rcases ih (i, w) (i + 1) with h | ⟨j, hj, h1, h2⟩
      · right
        refine ⟨0, by simp, ?_, ?_⟩
        · rw [h]
          simp
        · rw [h]
          rfl
      · right
        refine ⟨j + 1, by simpa using hj, ?_, ?_⟩
        · rw [h1]
          omega
        · rw [h2]
          rfl
    · rw [if_neg hw]
      rcases ih best (i + 1) with h | ⟨j, hj, h1, h2⟩
      · exact Or.inl h
      · right
        refine ⟨j + 1, by simpa using hj, ?_, ?_⟩
        · rw [h1]
          omega
        · rw [h2]
          rfl

theorem argmaxFrom_first (best : ℕ × ℚ) (i : ℕ) (l : List ℚ)
    (hbi : best.1 ≤ i) :
    ∀ j, j < l.length → (argmaxFrom best i l).2 ≤ l.getD j 0 →
      (argmaxFrom best i l).1 ≤ i + j := by
  induction l generalizing best i with
  | nil =>
    intro j hj
    simp at hj
  | cons w t ih =>
    intro j hj hle
    simp only [argmaxFrom] at hle ⊢
    by_cases hw : best.2 < w
    · rw [if_pos hw] at hle ⊢
      match j with
      | 0 =>
        have heq := argmaxFrom_eq_best (i, w) (i + 1) t (by simpa using hle)
        rw [heq]
        simp
      | j' + 1 =>
        have hih := ih (i, w) (i + 1) (by simp) j' (by simpa using hj)
          (by simpa using hle)
        omega
    · rw [if_neg hw] at hle ⊢
      match j with
      | 0 =>
        have hres : (argmaxFrom best (i + 1) t).2 ≤ best.2 :=
          le_trans (by simpa using hle) (not_lt.mp hw)
        have heq := argmaxFrom_eq_best best (i + 1) t hres
        rw [heq]
        omega
      | j' + 1 =>
        have hih := ih best (i + 1) (by omega) j' (by simpa using hj)
          (by simpa using hle)
        omega

theorem np_argmax_spec {v : ℚ} {rest : List ℚ} :
    (v :: rest).getD (np_argmax (v :: rest)) 0 = (argmaxFrom (0, v) 1 rest).2 ∧
    np_argmax (v :: rest) < (v :: rest).length := by
  rcases argmaxFrom_mem (0, v) 1 rest with h | ⟨j, hj, h1, h2⟩
  · constructor
    · simp only [np_argmax, h]
      rfl
    · simp [np_argmax, h]
  · constructor
    · simp only [np_argmax, h1, h2, Nat.add_comm 1 j]
      rfl
    · simp only [np_argmax, h1, List.length_cons]
      omega

theorem np_argmax_lt {xs : List ℚ} (h : xs ≠ []) : np_argmax xs < xs.length := by
  match xs, h with
  | v :: rest, _ => exact np_argmax_spec.2

theorem np_argmax_ge {xs : List ℚ} :
    ∀ j, j < xs.length → xs.getD j 0 ≤ xs.getD (np_argmax xs) 0 := by
  match xs with
  | [] =>
    intro j hj
    simp at hj
  | v :: rest =>
    intro j hj
    rw [np_argmax_spec.1]
    match j with
    | 0 => exact argmaxFrom_ge_best (0, v) 1 rest
    | j' + 1 =>
      have hmem : rest.getD j' 0 ∈ rest := by
        rw [List.getD_eq_getElem _ _ (by simpa using hj)]
        exact List.getElem_mem _
      exact argmaxFrom_ge_mem (0, v) 1 rest _ hmem

theorem np_argmax_first {xs : List ℚ} :
    ∀ j, j < xs.length → xs.getD (np_argmax xs) 0 ≤ xs.getD j 0 →
      np_argmax xs ≤ j := by
  match xs with
  | [] =>
    intro j hj
    simp at hj
  | v :: rest =>
    intro j hj hle
    rw [np_argmax_spec.1] at hle
    match j with
    | 0 =>
      have heq := argmaxFrom_eq_best (0, v) 1 rest (by simpa using hle)
      simp [np_argmax, heq]
    | j' + 1 =>
      have hfirst := argmaxFrom_first (0, v) 1 rest (by simp) j'
        (by simpa using hj) (by simpa using hle)
      simp only [np_argmax]
      omega

theorem slice_abs_getD (cv : List ℚ) (max_lag lag : ℕ)
    (hl1 : 1 ≤ lag) (hl2 : lag ≤ max_lag) (hlen : max_lag + 1 ≤ cv.length) :
    (((cv.drop 1).take max_lag).map fun x => |x|).getD (lag - 1) 0
      = |cv.getD lag 0| := by
  have hb1 : lag - 1 < (((cv.drop 1).take max_lag).map fun x => |x|).length := by
    rw [List.length_map, List.length_take, List.length_drop]
    omega
  have hb4 : lag < cv.length := by omega
  have hidx : 1 + (lag - 1) = lag := by omega
  rw [List.getD_eq_getElem _ _ hb1, List.getD_eq_getElem _ _ hb4]
  simp only [List.getElem_map, List.getElem_take, List.getElem_drop, hidx]

/-- C4: in every successful lead-lag run with `max_lag ≥ 1` (and a
cross-correlation sequence long enough to cover the lags, as the
statsmodels `ccf` output always is), the reported strongest lag lies in
`1..max_lag` (lag 0 is excluded), its correlation has maximal absolute
value among those lags, the lowest lag wins exact ties of absolute
value, and the reported correlation is the signed coefficient at the
reported lag. -/
theorem C4_ccf_strongest_lag
    (adfO : List ℚ → ℚ) (grangerO : List (ℚ × ℚ) → ℕ → ℚ)
    (ccfO : List ℚ → List ℚ → List ℚ) (dados : DadosBrutos)
    (produto_id estab_A estab_B freq max_lag : ℕ) (r : ResultadoQ2)
    (hml : 1 ≤ max_lag)
    (hlen : max_lag + 1
      ≤ (ccf_vals adfO ccfO dados produto_id estab_A estab_B freq).length)
    (hok : analisar_lideranca_preco adfO grangerO ccfO dados produto_id estab_A
      estab_B freq max_lag = Except.ok r) :
    (1 ≤ r.max_corr_lag ∧ r.max_corr_lag ≤ max_lag) ∧
    (∀ lag, 1 ≤ lag → lag ≤ max_lag →
      |(ccf_vals adfO ccfO dados produto_id estab_A estab_B freq).getD lag 0|
        ≤ |(ccf_vals adfO ccfO dados produto_id estab_A estab_B freq).getD
            r.max_corr_lag 0|) ∧
    (∀ lag, 1 ≤ lag → lag ≤ max_lag →
      |(ccf_vals adfO ccfO dados produto_id estab_A estab_B freq).getD lag 0|
        = |(ccf_vals adfO ccfO dados produto_id estab_A estab_B freq).getD
            r.max_corr_lag 0| →
      r.max_corr_lag ≤ lag) ∧
    r.max_corr_val
      = (ccf_vals adfO ccfO dados produto_id estab_A estab_B freq).getD
          r.max_corr_lag 0 := by
  simp only [analisar_lideranca_preco] at hok
  split_ifs at hok with h1 h2 h3
  have hr := Except.ok.inj hok
  subst hr
  dsimp only
  set cv := ccf_vals adfO ccfO dados produto_id estab_A estab_B freq with hcv
  set xs := ((cv.drop 1).take max_lag).map (fun x => |x|) with hxs
  have hxslen : xs.length = max_lag := by
    rw [hxs, List.length_map, List.length_take, List.length_drop]
    omega
  have hxsne : xs ≠ [] := by
    intro hc
    rw [hc] at hxslen
    simp at hxslen
    omega
  have hget : ∀ lag, 1 ≤ lag → lag ≤ max_lag →
      xs.getD (lag - 1) 0 = |cv.getD lag 0| := by
    intro lag hl1 hl2
    rw [hxs]
    exact slice_abs_getD cv max_lag lag hl1 hl2 hlen
  have hargLt : np_argmax xs < max_lag := by
    have := np_argmax_lt hxsne
    omega
  have hargget : xs.getD (np_argmax xs) 0 = |cv.getD (np_argmax xs + 1) 0| := by
    have := hget (np_argmax xs + 1) (by omega) (by omega)
    simpa using this
  refine ⟨⟨by omega, by omega⟩, ?_, ?_, rfl⟩
  · intro lag hl1 hl2
    have hmono := np_argmax_ge (lag - 1) (by omega : lag - 1 < xs.length)
    rw [hget lag hl1 hl2, hargget] at hmono
    simpa using hmono
  · intro lag hl1 hl2 heq
    have hfirst := np_argmax_first (lag - 1) (by omega : lag - 1 < xs.length)
    rw [hget lag hl1 hl2, hargget] at hfirst
    have := hfirst (le_of_eq heq.symm)
    omega

/-- Witness for C4 at the concrete run: with cross-correlations
`[0, 1/10, -1/5]` and `max_lag = 1`, the strongest lag is 1 with signed
value `1/10`. -/
theorem C4_ccf_strongest_lag_witness :
    (1 ≤ RW3.max_corr_lag ∧ RW3.max_corr_lag ≤ 1) ∧
    (∀ lag, 1 ≤ lag → lag ≤ 1 →
      |([0, 1 / 10, -1 / 5] : List ℚ).getD lag 0|
        ≤ |([0, 1 / 10, -1 / 5] : List ℚ).getD RW3.max_corr_lag 0|) ∧
    (∀ lag, 1 ≤ lag → lag ≤ 1 →
      |([0, 1 / 10, -1 / 5] : List ℚ).getD lag 0|
        = |([0, 1 / 10, -1 / 5] : List ℚ).getD RW3.max_corr_lag 0| →
      RW3.max_corr_lag ≤ lag) ∧
    RW3.max_corr_val = ([0, 1 / 10, -1 / 5] : List ℚ).getD RW3.max_corr_lag 0 :=
  C4_ccf_strongest_lag (fun _ => 1 / 100) (fun _ _ => 3 / 100)
    (fun _ _ => [0, 1 / 10, -1 / 5]) dadosW3 7 0 1 1 1 RW3 (le_refl 1)
    (by decide) analisar_dadosW3_run

end CestaBasica
